import Mathlib

/-!
Verification of the conversation-history state machine and the UI stream
relay of the Lunaa chat client (src/lunaa.py).

The embedding mirrors the Python source:

* a `Turn` is one `{"role": ..., "content": ...}` dictionary in
  `OllamaChat.history`;
* `OllamaChat.init` embeds `OllamaChat.__init__` (lines 26-30): the
  `if system_prompt:` truthiness test on a string is `system_prompt ≠ ""`;
* the external daemon client `ollama.chat(..., stream=True)` is modelled by
  a `DaemonStream`: the list of records it delivers before it either
  completes normally (`error = none`) or raises (`error = some e`).  Each
  record carries the value of `chunk.get("message", {}).get("content", "")`
  before the default is applied: `none` models a missing `message` /
  `content` field, `some s` a present content string `s`;
* `ask_stream` embeds the fully drained run of the generator
  `OllamaChat.ask_stream` (lines 32-57): the pair of the list of chunks the
  generator yields, in order, and the final state of the chat object.
  Python generator laziness is captured separately by a small-step model
  (`ask_stream_call` / `genNext`) below, validated against `ask_stream` by
  `genDrain_call_eq_ask_stream`.
-/

structure Turn where
  role : String
  content : String
deriving DecidableEq, Repr

structure OllamaChat where
  model : String
  history : List Turn
deriving DecidableEq, Repr

/-- Embeds `OllamaChat.__init__` (src/lunaa.py lines 26-30): store the model,
start with an empty history, and append one system turn iff the system
prompt string is truthy (non-empty). -/
def OllamaChat.init (model system_prompt : String) : OllamaChat :=
  { model := model
    history := if system_prompt ≠ "" then [⟨"system", system_prompt⟩] else [] }

/-- One run of the external daemon client iterator: the records it delivers,
and whether it then completes normally (`error = none`) or raises an
exception whose text is `e` (`error = some e`).  A failure of the
`ollama.chat` call itself is `records = []`, `error = some e`. -/
structure DaemonStream where
  records : List (Option String)
  error : Option String
deriving DecidableEq, Repr

/-- `chunk.get("message", {}).get("content", "")` (line 43): a missing
message or content field yields the default `""`. -/
def extractDelta (r : Option String) : String := r.getD ""

/-- The single error chunk built at line 49:
`f"[Error] {e}\nMake sure the Ollama daemon is running and the model '{self.model}' is pulled."`. -/
def errText (e model : String) : String :=
  "[Error] " ++ e ++
    "\nMake sure the Ollama daemon is running and the model \x27" ++ model ++
    "\x27 is pulled."

/-- The `accumulated` list at the end of the streaming loop (lines 42-46):
the extracted deltas of the delivered records, keeping only the truthy
(non-empty) ones, in delivery order.  Each kept delta is also yielded, so
this is likewise the list of chunks yielded by the loop. -/
def accumulatedOf : List (Option String) → List String
  | [] => []
  | r :: rest =>
      let delta := extractDelta r
      if delta = "" then accumulatedOf rest else delta :: accumulatedOf rest

/-- Fully drained run of the generator `OllamaChat.ask_stream`
(src/lunaa.py lines 32-57) against daemon behaviour `s`.  Returns the list
of chunks yielded, in order, and the final chat state.

* line 37: the user turn is appended before the loop;
* lines 42-46: each delivered record's non-empty delta is accumulated and
  yielded;
* lines 47-53 (daemon raised): one error chunk is yielded, then the last
  history entry — the just-appended user turn — is popped and the
  generator returns;
* lines 56-57 (normal completion): the accumulated deltas are joined and
  appended as one assistant turn. -/
def ask_stream (c : OllamaChat) (user_text : String) (s : DaemonStream) :
    List String × OllamaChat :=
  let c1 : OllamaChat := { c with history := c.history ++ [⟨"user", user_text⟩] }
  let accumulated := accumulatedOf s.records
  match s.error with
  | some e =>
      (accumulated ++ [errText e c.model],
       { c1 with history := c1.history.dropLast })
  | none =>
      (accumulated,
       { c1 with history := c1.history ++ [⟨"assistant", String.join accumulated⟩] })

/-- A sequence of fully drained requests, each with its own daemon
behaviour, run left to right on the same chat object (each UI send in
src/lunaa.py drains one `ask_stream` generator to the end). -/
def runRequests (c : OllamaChat) : List (String × DaemonStream) → OllamaChat
  | [] => c
  | (ut, s) :: rest => runRequests (ask_stream c ut s).2 rest

/-- The role pattern of `n` completed request/response pairs. -/
def alternatingRoles : Nat → List String
  | 0 => []
  | n + 1 => "user" :: "assistant" :: alternatingRoles n

section Generator

/-!
Small-step model of the generator object returned by
`OllamaChat.ask_stream`.  In Python a generator function body does not run
at call time: it runs on each `next()`, up to the next `yield` (or to
`return` / falling off the end, which raises `StopIteration`).
-/

/-- Suspension points of the generator body of `OllamaChat.ask_stream`. -/
inductive GenState where
  /-- The generator object exists but `next()` has not been called: no line
  of the body, in particular not the `history.append` of line 37, has run. -/
  | unstarted (user_text : String) (s : DaemonStream)
  /-- Suspended at the `yield delta` of line 46, with `accumulated` and the
  records not yet taken from the daemon iterator. -/
  | suspended (accumulated : List String) (remaining : List (Option String))
      (error : Option String)
  /-- Suspended at the `yield err` of line 50: the rollback `pop` of line 52
  has not run yet. -/
  | afterErrorYield
  /-- The body has returned: every further `next()` raises `StopIteration`. -/
  | finished
deriving DecidableEq, Repr

/-- Calling the generator function `ask_stream` (line 32): Python builds a
generator object and defers the whole body, so the chat object is returned
unchanged. -/
def ask_stream_call (c : OllamaChat) (user_text : String) (s : DaemonStream) :
    GenState × OllamaChat :=
  (GenState.unstarted user_text s, c)

/-- Run the streaming loop of lines 42-46 from inside the body until the
next `yield` or until the body returns: skip falsy deltas, stop at the
first truthy one; at the end of the records either raise (entering the
`except` block, lines 47-50) or fall through to the commit of lines 56-57. -/
def runLoop (c : OllamaChat) (error : Option String) (accumulated : List String) :
    List (Option String) → Option String × GenState × OllamaChat
  | [] =>
      match error with
      | some e => (some (errText e c.model), GenState.afterErrorYield, c)
      | none =>
          (none, GenState.finished,
           { c with history :=
               c.history ++ [⟨"assistant", String.join accumulated⟩] })
  | r :: rest =>
      let delta := extractDelta r
      if delta = "" then runLoop c error accumulated rest
      else (some delta, GenState.suspended (accumulated ++ [delta]) rest error, c)

/-- One `next()` on the generator: the yielded chunk if any (`none` is
`StopIteration`), the new suspension point, and the updated chat. -/
def genNext : GenState → OllamaChat → Option String × GenState × OllamaChat
  | GenState.unstarted ut s, c =>
      runLoop { c with history := c.history ++ [⟨"user", ut⟩] } s.error [] s.records
  | GenState.suspended acc rem err, c => runLoop c err acc rem
  | GenState.afterErrorYield, c =>
      (none, GenState.finished, { c with history := c.history.dropLast })
  | GenState.finished, c => (none, GenState.finished, c)

/-- Drain the generator: call `next()` until `StopIteration`, collecting the
yielded chunks.  `fuel` bounds the number of calls. -/
def genDrain : Nat → GenState → OllamaChat → List String × OllamaChat
  | 0, _, c => ([], c)
  | fuel + 1, g, c =>
      match genNext g c with
      | (none, _, c1) => ([], c1)
      | (some ch, g1, c1) =>
          let (rest, c2) := genDrain fuel g1 c1
          (ch :: rest, c2)

end Generator

section UIRelay

/-- A UI mutation marshalled onto the Tk event loop by `self.after(0, ...)`
from the background worker (src/lunaa.py lines 163-173).  The `after`
queue is FIFO, so the delivery order on the UI thread is the scheduling
order; the list below is both. -/
inductive UIEvent where
  /-- `self._append_assistant_header` (line 165). -/
  | assistantHeader
  /-- `self._append_assistant_chunk, chunk` (line 169). -/
  | transcriptAppend (chunk : String)
  /-- `self.set_input_enabled, enabled` (line 170). -/
  | setInputEnabled (enabled : Bool)
deriving DecidableEq, Repr

/-- The inner `do_stream` closure (lines 167-170): drain the generator,
scheduling one transcript append per chunk in yield order, then schedule
re-enabling the input. -/
def do_stream (c : OllamaChat) (user_text : String) (s : DaemonStream) :
    List UIEvent × OllamaChat :=
  let (chunks, c1) := ask_stream c user_text s
  (chunks.map UIEvent.transcriptAppend ++ [UIEvent.setInputEnabled true], c1)

/-- `ChatUI._stream_response` (lines 163-173), as the ordered list of UI
updates it schedules: the assistant header first, then everything
`do_stream` schedules. -/
def stream_response (c : OllamaChat) (user_text : String) (s : DaemonStream) :
    List UIEvent × OllamaChat :=
  (UIEvent.assistantHeader :: (do_stream c user_text s).1, (do_stream c user_text s).2)

end UIRelay

/-! ## Basic lemmas about the embedded operations -/

theorem accumulatedOf_cons_of_empty (r : Option String) (rest : List (Option String))
    (h : extractDelta r = "") : accumulatedOf (r :: rest) = accumulatedOf rest := by
  simp [accumulatedOf, h]

theorem accumulatedOf_cons_of_ne (r : Option String) (rest : List (Option String))
    (h : ¬ extractDelta r = "") :
    accumulatedOf (r :: rest) = extractDelta r :: accumulatedOf rest := by
  simp [accumulatedOf, h]

/-- The accumulated list is the list of extracted deltas with the falsy
(empty) ones dropped. -/
theorem accumulatedOf_eq_filter (records : List (Option String)) :
    accumulatedOf records = (records.map extractDelta).filter (fun d => d ≠ "") := by
  induction records with
  | nil => rfl
  | cons r rest ih =>
      by_cases h : extractDelta r = "" <;> simp [accumulatedOf, h, ih]

/-- A failing request leaves the chat object exactly as it was: the `pop` of
line 52 removes the user turn appended at line 37. -/
theorem ask_stream_failure_chat (c : OllamaChat) (ut e : String)
    (records : List (Option String)) :
    (ask_stream c ut ⟨records, some e⟩).2 = c := by
  cases c with
  | mk model history => simp [ask_stream]

theorem ask_stream_failure_chunks (c : OllamaChat) (ut e : String)
    (records : List (Option String)) :
    (ask_stream c ut ⟨records, some e⟩).1 =
      accumulatedOf records ++ [errText e c.model] := rfl

/-- A successful fully drained request appends exactly the user turn and one
assistant turn holding the joined accumulated deltas. -/
theorem ask_stream_success_chat (c : OllamaChat) (ut : String)
    (records : List (Option String)) :
    (ask_stream c ut ⟨records, none⟩).2 =
      { c with history := c.history ++
          [⟨"user", ut⟩, ⟨"assistant", String.join (accumulatedOf records)⟩] } := by
  simp [ask_stream]

theorem ask_stream_success_chunks (c : OllamaChat) (ut : String)
    (records : List (Option String)) :
    (ask_stream c ut ⟨records, none⟩).1 = accumulatedOf records := rfl

/-- Any single request, successful or failing, preserves the head of a
non-empty history. -/
theorem ask_stream_history_head (c : OllamaChat) (ut : String) (s : DaemonStream)
    (t : Turn) (h : c.history.head? = some t) :
    ((ask_stream c ut s).2).history.head? = some t := by
  obtain ⟨records, error⟩ := s
  cases error with
  | none =>
      rw [ask_stream_success_chat]
      cases hh : c.history with
      | nil => rw [hh] at h; cases h
      | cons a l => rw [hh] at h; simp at h; simp [h]
  | some e => rw [ask_stream_failure_chat]; exact h

theorem runRequests_history_head (reqs : List (String × DaemonStream)) :
    ∀ (c : OllamaChat) (t : Turn), c.history.head? = some t →
      (runRequests c reqs).history.head? = some t := by
  induction reqs with
  | nil => intro c t h; exact h
  | cons p rest ih =>
      intro c t h
      obtain ⟨ut, s⟩ := p
      exact ih _ _ (ask_stream_history_head c ut s t h)

/-- A run of successful requests extends the role list of the history by one
user/assistant pair per request. -/
theorem runRequests_history_roles (reqs : List (String × DaemonStream)) :
    ∀ c : OllamaChat, (∀ r ∈ reqs, r.2.error = none) →
      (runRequests c reqs).history.map Turn.role =
        c.history.map Turn.role ++ alternatingRoles reqs.length := by
  induction reqs with
  | nil => intro c _; simp [runRequests, alternatingRoles]
  | cons p rest ih =>
      intro c h
      obtain ⟨ut, s⟩ := p
      have hs : s.error = none := h (ut, s) (List.mem_cons_self _ _)
      obtain ⟨records, error⟩ := s
      simp only at hs
      subst hs
      rw [runRequests, ih _ (fun r hr => h r (List.mem_cons_of_mem _ hr)),
        ask_stream_success_chat]
      simp [alternatingRoles]

theorem alternatingRoles_length (n : Nat) : (alternatingRoles n).length = 2 * n := by
  induction n with
  | zero => rfl
  | succ n ih => simp [alternatingRoles, ih]; omega

/-! ## Lemmas about the small-step generator model -/

/-- The streaming loop only ever extends the history it was entered with
(it appends the assistant turn on normal completion and touches nothing on
the other exits). -/
theorem runLoop_history_grows (rem : List (Option String)) :
    ∀ (c : OllamaChat) (error : Option String) (acc : List String),
      c.history <+: ((runLoop c error acc rem).2.2).history := by
  induction rem with
  | nil =>
      intro c error acc
      cases error with
      | some e => exact ⟨[], List.append_nil _⟩
      | none => exact ⟨_, rfl⟩
  | cons r rest ih =>
      intro c error acc
      by_cases h : extractDelta r = ""
      · simpa [runLoop, h] using ih c error acc
      · simp [runLoop, h]

/-- Skipping a falsy record does not change what draining produces. -/
theorem genDrain_skip (fuel : Nat) (acc : List String) (err : Option String)
    (r : Option String) (rest : List (Option String)) (c : OllamaChat)
    (h : extractDelta r = "") :
    genDrain (fuel + 1) (GenState.suspended acc (r :: rest) err) c =
      genDrain (fuel + 1) (GenState.suspended acc rest err) c := by
  simp [genDrain, genNext, runLoop, h]

/-- Draining from a loop suspension with a normally completing daemon:
the remaining non-empty deltas are yielded and the assistant turn commits
everything accumulated. -/
theorem genDrain_suspended_none (rem : List (Option String)) :
    ∀ (fuel : Nat) (acc : List String) (c : OllamaChat),
      rem.length + 1 ≤ fuel →
      genDrain fuel (GenState.suspended acc rem none) c =
        (accumulatedOf rem,
         { c with history := c.history ++
             [⟨"assistant", String.join (acc ++ accumulatedOf rem)⟩] }) := by
  induction rem with
  | nil =>
      intro fuel acc c hf
      obtain ⟨f, rfl⟩ : ∃ f, fuel = f + 1 := ⟨fuel - 1, by omega⟩
      simp [genDrain, genNext, runLoop, accumulatedOf]
  | cons r rest ih =>
      intro fuel acc c hf
      obtain ⟨f, rfl⟩ : ∃ f, fuel = f + 1 := ⟨fuel - 1, by omega⟩
      by_cases h : extractDelta r = ""
      · rw [genDrain_skip f acc none r rest c h,
          ih (f + 1) acc c (by simp at hf; omega)]
        simp [accumulatedOf_cons_of_empty r rest h]
      · have hg : genNext (GenState.suspended acc (r :: rest) none) c =
            (some (extractDelta r),
             GenState.suspended (acc ++ [extractDelta r]) rest none, c) := by
          simp [genNext, runLoop, h]
        have hrec := ih f (acc ++ [extractDelta r]) c (by simp at hf; omega)
        simp [genDrain, hg, hrec, accumulatedOf_cons_of_ne r rest h]

/-- Draining from a loop suspension with a daemon that raises after the
remaining records: the remaining non-empty deltas are yielded, then the one
error chunk, and the last history entry is popped. -/
theorem genDrain_suspended_some (rem : List (Option String)) :
    ∀ (fuel : Nat) (acc : List String) (e : String) (c : OllamaChat),
      rem.length + 2 ≤ fuel →
      genDrain fuel (GenState.suspended acc rem (some e)) c =
        (accumulatedOf rem ++ [errText e c.model],
         { c with history := c.history.dropLast }) := by
  induction rem with
  | nil =>
      intro fuel acc e c hf
      obtain ⟨f, rfl⟩ : ∃ f, fuel = f + 2 := ⟨fuel - 2, by omega⟩
      simp [genDrain, genNext, runLoop, accumulatedOf]
  | cons r rest ih =>
      intro fuel acc e c hf
      obtain ⟨f, rfl⟩ : ∃ f, fuel = f + 1 := ⟨fuel - 1, by omega⟩
      by_cases h : extractDelta r = ""
      · rw [genDrain_skip f acc (some e) r rest c h,
          ih (f + 1) acc e c (by simp at hf; omega)]
        simp [accumulatedOf_cons_of_empty r rest h]
      · have hg : genNext (GenState.suspended acc (r :: rest) (some e)) c =
            (some (extractDelta r),
             GenState.suspended (acc ++ [extractDelta r]) rest (some e), c) := by
          simp [genNext, runLoop, h]
        have hrec := ih f (acc ++ [extractDelta r]) e c (by simp at hf; omega)
        simp [genDrain, hg, hrec, accumulatedOf_cons_of_ne r rest h]

/-- The small-step generator model agrees with the big-step `ask_stream`:
creating the generator object and draining it with enough fuel yields the
same chunks and the same final chat state. -/
theorem genDrain_call_eq_ask_stream (c : OllamaChat) (ut : String) (s : DaemonStream)
    (fuel : Nat) (hf : s.records.length + 2 ≤ fuel) :
    genDrain fuel (ask_stream_call c ut s).1 (ask_stream_call c ut s).2 =
      ask_stream c ut s := by
  obtain ⟨records, error⟩ := s
  simp only at hf
  obtain ⟨f, rfl⟩ : ∃ f, fuel = f + 1 := ⟨fuel - 1, by omega⟩
  have hstep : genDrain (f + 1)
      (GenState.unstarted ut ⟨records, error⟩) c =
      genDrain (f + 1) (GenState.suspended [] records error)
        { c with history := c.history ++ [⟨"user", ut⟩] } := by
    simp [genDrain, genNext, runLoop]
  rw [show (ask_stream_call c ut ⟨records, error⟩).1 =
      GenState.unstarted ut ⟨records, error⟩ from rfl,
    show (ask_stream_call c ut ⟨records, error⟩).2 = c from rfl, hstep]
  cases error with
  | none =>
      rw [genDrain_suspended_none records (f + 1) [] _ (by simp; omega)]
      simp [ask_stream]
  | some e =>
      rw [genDrain_suspended_some records (f + 1) [] e _ (by simp; omega)]
      simp [ask_stream]

/-! ## The claims -/

/-- C1: if the daemon client raises during streaming, then after the lazy
sequence from `ask_stream` ends, the session history is exactly its state
from before the request — the user turn appended for the request is removed,
no assistant turn is added, and in particular the history length is
unchanged. -/
theorem C1_failure_restores_history (c : OllamaChat) (ut e : String)
    (records : List (Option String)) :
    ((ask_stream c ut ⟨records, some e⟩).2).history = c.history ∧
    ((ask_stream c ut ⟨records, some e⟩).2).history.length = c.history.length := by
  rw [ask_stream_failure_chat]
  exact ⟨rfl, rfl⟩

/-- C2: every fully drained successful call appends exactly one assistant
turn whose content is the concatenation, in yield order, of all chunks the
call yielded; and on the concrete scenario — system prompt "You are
terse.", user text "2+2?", daemon stream ["4"] — the chunks are ["4"] and
the resulting history is [system, user, assistant "4"]. -/
theorem C2_success_commits_joined_chunks (c : OllamaChat) (ut : String)
    (records : List (Option String)) :
    ((ask_stream c ut ⟨records, none⟩).2).history =
      c.history ++ [⟨"user", ut⟩,
        ⟨"assistant", String.join ((ask_stream c ut ⟨records, none⟩).1)⟩] ∧
    (ask_stream (OllamaChat.init "llama3.1" "You are terse.") "2+2?"
        ⟨[some "4"], none⟩).1 = ["4"] ∧
    ((ask_stream (OllamaChat.init "llama3.1" "You are terse.") "2+2?"
        ⟨[some "4"], none⟩).2).history =
      [⟨"system", "You are terse."⟩, ⟨"user", "2+2?"⟩, ⟨"assistant", "4"⟩] := by
  refine ⟨?_, by decide, by decide⟩
  rw [ask_stream_success_chunks, ask_stream_success_chat]

/-- C3: after any sequence of fully drained successful requests on a fresh
session, the roles in history are the optional system role followed by a
strictly alternating user/assistant pattern, and the history length is
(1 if a system prompt was configured else 0) + 2N. -/
theorem C3_success_run_shape (model sysPrompt : String)
    (reqs : List (String × DaemonStream)) (h : ∀ r ∈ reqs, r.2.error = none) :
    (runRequests (OllamaChat.init model sysPrompt) reqs).history.map Turn.role =
      (if sysPrompt ≠ "" then ["system"] else []) ++ alternatingRoles reqs.length ∧
    (runRequests (OllamaChat.init model sysPrompt) reqs).history.length =
      (if sysPrompt ≠ "" then 1 else 0) + 2 * reqs.length := by
  have hr := runRequests_history_roles reqs (OllamaChat.init model sysPrompt) h
  have hbase : (OllamaChat.init model sysPrompt).history.map Turn.role =
      (if sysPrompt ≠ "" then ["system"] else []) := by
    by_cases hs : sysPrompt = "" <;> simp [OllamaChat.init, hs]
  constructor
  · rw [hr, hbase]
  · have h2 := congrArg List.length hr
    rw [List.length_map] at h2
    rw [h2, List.length_append, alternatingRoles_length, List.length_map]
    by_cases hs : sysPrompt = "" <;> simp [OllamaChat.init, hs]

/-- Witness for C3 at a concrete pair of successful requests. -/
theorem C3_success_run_shape_witness :
    (runRequests (OllamaChat.init "llama3.1" "You are terse.")
        [("2+2?", ⟨[some "4"], none⟩), ("and 3+3?", ⟨[some "6"], none⟩)]).history.map
        Turn.role =
      ["system", "user", "assistant", "user", "assistant"] := by
  have h := C3_success_run_shape "llama3.1" "You are terse."
      [("2+2?", ⟨[some "4"], none⟩), ("and 3+3?", ⟨[some "6"], none⟩)] (by decide)
  rw [h.1]
  decide

/-- C4: when the daemon client raises, the drained sequence is the
already-yielded fragments followed by exactly one final error chunk; that
chunk contains the underlying error text and a remediation hint naming the
configured model; and no assistant turn is appended (the history is exactly
restored). -/
theorem C4_error_yields_single_final_chunk (c : OllamaChat) (ut e : String)
    (records : List (Option String)) :
    (ask_stream c ut ⟨records, some e⟩).1 =
      accumulatedOf records ++ [errText e c.model] ∧
    ((ask_stream c ut ⟨records, some e⟩).1).getLast? = some (errText e c.model) ∧
    (∃ p q : String, errText e c.model = p ++ e ++ q) ∧
    (∃ p q : String, errText e c.model = p ++ c.model ++ q) ∧
    ((ask_stream c ut ⟨records, some e⟩).2).history = c.history := by
  refine ⟨rfl, ?_, ?_, ?_, ?_⟩
  · rw [ask_stream_failure_chunks]
    simp
  · exact ⟨"[Error] ",
      "\nMake sure the Ollama daemon is running and the model \x27" ++ c.model ++
        "\x27 is pulled.",
      by simp [errText, String.append_assoc]⟩
  · exact ⟨"[Error] " ++ e ++
        "\nMake sure the Ollama daemon is running and the model \x27",
      "\x27 is pulled.",
      by simp [errText, String.append_assoc]⟩
  · rw [ask_stream_failure_chat]

/-- C5: a system turn present at session creation stays the first history
element after every request, whether it succeeds or fails, in any order and
number. -/
theorem C5_system_turn_stays_first (model sysPrompt : String) (h : sysPrompt ≠ "")
    (reqs : List (String × DaemonStream)) :
    ((runRequests (OllamaChat.init model sysPrompt) reqs).history.head?) =
      some ⟨"system", sysPrompt⟩ := by
  apply runRequests_history_head
  simp [OllamaChat.init, h]

/-- Witness for C5: a failing request followed by a successful one. -/
theorem C5_system_turn_stays_first_witness :
    ("You are terse." ≠ "") ∧
    ((runRequests (OllamaChat.init "llama3.1" "You are terse.")
        [("hi", ⟨[], some "connection refused"⟩),
         ("2+2?", ⟨[some "4"], none⟩)]).history.head?) =
      some ⟨"system", "You are terse."⟩ :=
  ⟨by decide, C5_system_turn_stays_first "llama3.1" "You are terse." (by decide)
      [("hi", ⟨[], some "connection refused"⟩), ("2+2?", ⟨[some "4"], none⟩)]⟩

/-- C6, as stated, is false on the code: `ask_stream` is a generator
function, so calling it builds a generator object and runs none of the
body — in particular the `history.append` of line 37 has not run yet when
the call returns.  Here the history right after the call is still the
initial one-element history, not the claimed two-element one. -/
theorem C6_counterexample_call_does_not_append :
    ((ask_stream_call (OllamaChat.init "llama3.1" "You are terse.") "2+2?"
        ⟨[some "4"], none⟩).2).history ≠
      (OllamaChat.init "llama3.1" "You are terse.").history ++
        [⟨"user", "2+2?"⟩] := by
  decide

/-- C6 (amended): calling `ask_stream` leaves the history untouched; the
user turn with content `user_text` is appended on the first advancement of
the lazy sequence, before any chunk is produced — after the first `next()`
the history extends the old history with exactly the user turn appended. -/
theorem C6_user_turn_appended_on_first_advance (c : OllamaChat) (ut : String)
    (s : DaemonStream) :
    (ask_stream_call c ut s).2 = c ∧
    (c.history ++ [⟨"user", ut⟩]) <+:
      ((genNext (ask_stream_call c ut s).1 c).2.2).history := by
  refine ⟨rfl, ?_⟩
  have h := runLoop_history_grows s.records
      { c with history := c.history ++ [⟨"user", ut⟩] } s.error []
  simpa [ask_stream_call, genNext] using h

/-- C7: the UI updates the background worker schedules for a request —
delivered to the UI thread in the order scheduled, since the event-loop
marshal is FIFO — are exactly: the assistant response header first, then
one transcript append per chunk in the order the sequence produced them,
and finally, after the sequence ends whether by success or by error, the
update that re-enables the input controls. -/
theorem C7_ui_update_order (c : OllamaChat) (ut : String) (s : DaemonStream) :
    (stream_response c ut s).1 =
      UIEvent.assistantHeader ::
        ((ask_stream c ut s).1.map UIEvent.transcriptAppend ++
          [UIEvent.setInputEnabled true]) ∧
    (stream_response c ut s).1.head? = some UIEvent.assistantHeader ∧
    (stream_response c ut s).1.getLast? = some (UIEvent.setInputEnabled true) := by
  refine ⟨rfl, rfl, ?_⟩
  show (UIEvent.assistantHeader ::
      ((ask_stream c ut s).1.map UIEvent.transcriptAppend ++
        [UIEvent.setInputEnabled true])).getLast? = some (UIEvent.setInputEnabled true)
  rw [← List.cons_append, List.getLast?_append_cons]
  rfl

/-- C8: rollback is idempotent across attempts — two consecutive failing
requests, each fully drained, leave the chat (and so its history) exactly
as it was before either attempt. -/
theorem C8_rollback_idempotent (c : OllamaChat) (ut1 ut2 e1 e2 : String)
    (r1 r2 : List (Option String)) :
    (ask_stream (ask_stream c ut1 ⟨r1, some e1⟩).2 ut2 ⟨r2, some e2⟩).2 = c ∧
    ((ask_stream (ask_stream c ut1 ⟨r1, some e1⟩).2 ut2 ⟨r2, some e2⟩).2).history =
      c.history := by
  rw [ask_stream_failure_chat, ask_stream_failure_chat]
  exact ⟨rfl, rfl⟩

/-- C9: records whose message content is empty or missing contribute
nothing: the chunks of a successful drain are exactly the non-empty
extracted deltas, in order, and the committed assistant turn (the last
history entry) holds the concatenation of only those non-empty fragments. -/
theorem C9_empty_fragments_skipped (c : OllamaChat) (ut : String)
    (records : List (Option String)) :
    (ask_stream c ut ⟨records, none⟩).1 =
      (records.map extractDelta).filter (fun d => d ≠ "") ∧
    ((ask_stream c ut ⟨records, none⟩).2).history.getLast? =
      some ⟨"assistant",
        String.join ((records.map extractDelta).filter (fun d => d ≠ ""))⟩ := by
  constructor
  · rw [ask_stream_success_chunks, accumulatedOf_eq_filter]
  · rw [ask_stream_success_chat, ← accumulatedOf_eq_filter]
    simp

/-- C10: a session built with an empty system-prompt string starts with an
empty history; one built with a non-empty system prompt starts with exactly
one system turn holding that prompt text. -/
theorem C10_init_history (model : String) :
    (OllamaChat.init model "").history = [] ∧
    ∀ sysPrompt : String, sysPrompt ≠ "" →
      (OllamaChat.init model sysPrompt).history = [⟨"system", sysPrompt⟩] := by
  constructor
  · simp [OllamaChat.init]
  · intro sp h
    simp [OllamaChat.init, h]

/-- Witness for C10 on both constructor shapes. -/
theorem C10_init_history_witness :
    (OllamaChat.init "llama3.1" "").history = [] ∧
    (OllamaChat.init "llama3.1" "You are terse.").history =
      [⟨"system", "You are terse."⟩] :=
  ⟨(C10_init_history "llama3.1").1,
   (C10_init_history "llama3.1").2 "You are terse." (by decide)⟩
